import Mathlib

/-!
Verification of `keylime/common/retry.py`.

The file embeds the single function `retry_time` of the repository as a pure
Lean function.  Numbers are modelled as rationals.  The logger collaborator is
modelled as a record whose `warning` operation may fail (`Except`); the call
returns, besides the numeric result, the trace of logger invocations made
during the call, so that claims about warning emission are statable.
-/

/-- An observable invocation of the logger during a call.  The source only
ever calls the `warning` operation; the other constructors exist so that
"no other logger operation is called" is a non-vacuous statement. -/
inductive LogEvent where
  | warning (msg : String) (arg : ℚ)
  | error (msg : String) (arg : ℚ)
  | info (msg : String) (arg : ℚ)
deriving DecidableEq, Repr

/-- `true` exactly on warning events. -/
def LogEvent.isWarning : LogEvent → Bool
  | LogEvent.warning _ _ => true
  | _ => false

/-- The opaque log sink: a `warning` operation taking a format template and a
numeric argument, which may fail (modelling a Python exception). -/
structure Logger where
  warning : String → ℚ → Except String Unit

/-- A logger whose warning always succeeds. -/
def okLogger : Logger := ⟨fun _ _ => Except.ok ()⟩

/-- A logger whose warning always raises. -/
def failingLogger : Logger := ⟨fun _ _ => Except.error "sink unavailable"⟩

/-- The format string used by the source's warning call. -/
def warnMsg : String := "Base %f incompatible with exponential backoff"

/-- Embedding of `retry_time` from `src/keylime/common/retry.py`:

```
def retry_time(exponential, base, ntries, logger):
    if exponential:
        if base > 1:
            return base**ntries
        else:
            try:
                logger.warning("Base %f incompatible with exponential backoff", base)
            except:
                None
    return abs(base)
```

The result pairs the returned number with the trace of logger invocations.
The `match` on the outcome of `logger.warning` has identical arms: this is
the `try`/`except` that swallows any failure of the sink, after which the
code falls through to `return abs(base)`. -/
def retry_time (exponential : Bool) (base : ℚ) (ntries : ℕ) (logger : Logger) :
    ℚ × List LogEvent :=
  if exponential then
    if base > 1 then
      (base ^ ntries, [])
    else
      match logger.warning warnMsg base with
      | Except.ok _ => (|base|, [LogEvent.warning warnMsg base])
      | Except.error _ => (|base|, [LogEvent.warning warnMsg base])
  else
    (|base|, [])

/-- In the degenerate branch the trace is a single warning carrying `base`,
whatever the logger does. -/
lemma retry_time_degenerate (base : ℚ) (ntries : ℕ) (logger : Logger)
    (hb : base ≤ 1) :
    retry_time true base ntries logger = (|base|, [LogEvent.warning warnMsg base]) := by
  unfold retry_time
  rw [if_pos rfl, if_neg (not_lt.mpr hb)]
  cases logger.warning warnMsg base <;> rfl

/-- C1: for every base strictly greater than 1 and every non-negative integer
`n`, the exponential mode returns `base ^ n` and emits no warning. -/
theorem retry_time_exponential_pow (base : ℚ) (n : ℕ) (logger : Logger)
    (hb : 1 < base) :
    retry_time true base n logger = (base ^ n, []) := by
  unfold retry_time
  rw [if_pos rfl, if_pos hb]

/-- Witness for C1 at `base = 2`, `n = 3`. -/
theorem retry_time_exponential_pow_witness :
    (1 : ℚ) < 2 ∧ retry_time true 2 3 okLogger = ((2 : ℚ) ^ 3, []) :=
  ⟨by norm_num, retry_time_exponential_pow 2 3 okLogger (by norm_num)⟩

/-- C2: for every base at most 1 and every attempt count, exponential mode
returns `|base|` and the trace is exactly one warning carrying `base`. -/
theorem retry_time_degenerate_warns (base : ℚ) (n : ℕ) (logger : Logger)
    (hb : base ≤ 1) :
    retry_time true base n logger = (|base|, [LogEvent.warning warnMsg base]) :=
  retry_time_degenerate base n logger hb

/-- Witness for C2 at `base = -3`, `n = 2`. -/
theorem retry_time_degenerate_warns_witness :
    (-3 : ℚ) ≤ 1 ∧
      retry_time true (-3) 2 okLogger = (|(-3 : ℚ)|, [LogEvent.warning warnMsg (-3)]) :=
  ⟨by norm_num, retry_time_degenerate_warns (-3) 2 okLogger (by norm_num)⟩

/-- C3: with `exponential = false` the call returns `|base|` for every base
and emits no warning. -/
theorem retry_time_fixed (base : ℚ) (n : ℕ) (logger : Logger) :
    retry_time false base n logger = (|base|, []) := rfl

/-- C4: if the logger's warning raises in the degenerate branch, the failure
is swallowed and the call still returns `|base|` with the single warning
invocation recorded. -/
theorem retry_time_swallows_logger_failure (base : ℚ) (n : ℕ) (logger : Logger)
    (err : String) (hb : base ≤ 1)
    (hfail : logger.warning warnMsg base = Except.error err) :
    retry_time true base n logger = (|base|, [LogEvent.warning warnMsg base]) :=
  retry_time_degenerate base n logger hb

/-- Witness for C4: the always-failing logger at `base = 1`, `n = 10`. -/
theorem retry_time_swallows_logger_failure_witness :
    (1 : ℚ) ≤ 1 ∧ failingLogger.warning warnMsg 1 = Except.error "sink unavailable" ∧
      retry_time true 1 10 failingLogger = (|(1 : ℚ)|, [LogEvent.warning warnMsg 1]) :=
  ⟨le_refl 1, rfl,
    retry_time_swallows_logger_failure 1 10 failingLogger "sink unavailable"
      (le_refl 1) rfl⟩

/-- C5: totality — every call terminates with a numeric result and a trace,
for every flag, base, attempt count and logger (failing ones included). -/
theorem retry_time_total (e : Bool) (base : ℚ) (n : ℕ) (logger : Logger) :
    ∃ (v : ℚ) (t : List LogEvent), retry_time e base n logger = (v, t) :=
  ⟨(retry_time e base n logger).1, (retry_time e base n logger).2, rfl⟩

/-- C6: the five concrete scenarios of the spec, with a healthy logger. -/
theorem retry_time_scenarios :
    retry_time true 2 3 okLogger = (8, []) ∧
    retry_time true (1/2) 4 okLogger = (1/2, [LogEvent.warning warnMsg (1/2)]) ∧
    retry_time false (-5) 0 okLogger = (5, []) ∧
    retry_time true 1 10 okLogger = (1, [LogEvent.warning warnMsg 1]) ∧
    retry_time true (-3) 2 okLogger = (3, [LogEvent.warning warnMsg (-3)]) := by
  refine ⟨rfl, ?_, rfl, rfl, rfl⟩
  rw [retry_time_degenerate (1/2) 4 okLogger (by norm_num)]
  norm_num

/-- C7: the only observable effect is at most one logger invocation, and
every recorded invocation is a warning (never another logger operation). -/
theorem retry_time_frame (e : Bool) (base : ℚ) (n : ℕ) (logger : Logger) :
    (retry_time e base n logger).2.length ≤ 1 ∧
      (retry_time e base n logger).2.all LogEvent.isWarning = true := by
  unfold retry_time
  cases e with
  | false => simp
  | true =>
    by_cases hb : base > 1
    · rw [if_pos rfl, if_pos hb]; simp
    · rw [if_pos rfl, if_neg hb]
      cases logger.warning warnMsg base <;> simp [LogEvent.isWarning]

/-- C8: the returned number does not depend on the logger — two calls with
equal `(exponential, base, attemptCount)` and arbitrary loggers agree. -/
theorem retry_time_logger_independent (e : Bool) (base : ℚ) (n : ℕ)
    (l₁ l₂ : Logger) :
    (retry_time e base n l₁).1 = (retry_time e base n l₂).1 := by
  unfold retry_time
  cases e with
  | false => rfl
  | true =>
    by_cases hb : base > 1
    · rw [if_pos rfl, if_pos hb, if_pos rfl, if_pos hb]
    · rw [if_pos rfl, if_neg hb, if_pos rfl, if_neg hb]
      cases l₁.warning warnMsg base <;> cases l₂.warning warnMsg base <;> rfl

/-- C9: for base at most 1, the degenerate exponential path and the fixed
path return the same number. -/
theorem retry_time_degenerate_eq_fixed (base : ℚ) (n : ℕ) (logger : Logger)
    (hb : base ≤ 1) :
    (retry_time true base n logger).1 = (retry_time false base n logger).1 := by
  rw [retry_time_degenerate base n logger hb, retry_time_fixed]

/-- Witness for C9 at `base = 0`, `n = 5`. -/
theorem retry_time_degenerate_eq_fixed_witness :
    (0 : ℚ) ≤ 1 ∧
      (retry_time true 0 5 okLogger).1 = (retry_time false 0 5 okLogger).1 :=
  ⟨by norm_num, retry_time_degenerate_eq_fixed 0 5 okLogger (by norm_num)⟩

/-- C10: the returned number is always non-negative, and in the exponential
path with `base > 1` it is at least 1. -/
theorem retry_time_nonneg (e : Bool) (base : ℚ) (n : ℕ) (logger : Logger) :
    0 ≤ (retry_time e base n logger).1 ∧
      (1 < base → 1 ≤ (retry_time true base n logger).1) := by
  constructor
  · unfold retry_time
    cases e with
    | false => simpa using abs_nonneg base
    | true =>
      by_cases hb : base > 1
      · rw [if_pos rfl, if_pos hb]
        exact pow_nonneg (le_of_lt (lt_trans one_pos hb)) n
      · rw [if_pos rfl, if_neg hb]
        cases logger.warning warnMsg base <;> simpa using abs_nonneg base
  · intro hb
    rw [retry_time_exponential_pow base n logger hb]
    exact one_le_pow₀ (le_of_lt hb)

/-- Witness for C10 at `e = true`, `base = 2`, `n = 3`. -/
theorem retry_time_nonneg_witness :
    0 ≤ (retry_time true 2 3 okLogger).1 ∧ 1 ≤ (retry_time true 2 3 okLogger).1 :=
  ⟨(retry_time_nonneg true 2 3 okLogger).1,
    (retry_time_nonneg true 2 3 okLogger).2 (by norm_num)⟩
